import Mathlib

/-!
# YoNutri checkout — verified model

A shallow embedding of the `POST /api/checkout` handler of `src/server.js`
(YoNutri e-commerce backend).  The relational store is a record of table
contents; money is exact rational arithmetic (the source uses JS numbers;
`Math.round(x*100)/100` becomes `⌊x*100 + 1/2⌋ / 100`).  The handler's
transaction is a function returning `Except`: a thrown error makes the
handler answer 500 and keep the original store (`conn.rollback()`), a
normal return commits the mutated store (`conn.commit()`).  Connection
pool traffic (`pool.getConnection()` / `conn.release()`) is recorded as an
event list on the handler result.
-/

abbrev Money := ℚ

/-- Row of `users(id, first_name, last_name, email, phone, password_hash)`. -/
structure UserRow where
  id : Nat
  first_name : String
  last_name : String
  email : String
  phone : String
  password_hash : String
deriving DecidableEq, Repr

/-- Row of `products` (only the columns checkout reads: `id`, `sku`). -/
structure ProductRow where
  id : Nat
  sku : String
deriving DecidableEq, Repr

/-- Row of `product_variants` (columns checkout reads). -/
structure VariantRow where
  id : Nat
  product_id : Nat
  grams : ℚ
  price : Money
deriving DecidableEq, Repr

/-- Row of `coupons(code, discount_type, value, min_subtotal, is_active, expires_at)`.
`expires_at` is a timestamp, compared with `NOW()` (`DB.now`). -/
structure CouponRow where
  code : String
  discount_type : String
  value : Money
  min_subtotal : Money
  is_active : Bool
  expires_at : Option ℚ
deriving DecidableEq, Repr

/-- Row of `orders(id, user_id, session_id, total_amount, status, payment_reference)`. -/
structure OrderRow where
  id : Nat
  user_id : Option Nat
  session_id : String
  total_amount : Money
  status : String
  payment_reference : Option String
deriving DecidableEq, Repr

/-- Row of `order_items(order_id, product_variant_id, quantity, unit_price)`. -/
structure OrderItemRow where
  order_id : Nat
  product_variant_id : Nat
  quantity : ℚ
  unit_price : Money
deriving DecidableEq, Repr

/-- The relational store: table contents, the AUTO_INCREMENT counters the
two INSERTs draw `insertId` from, and the clock `NOW()` reads. -/
structure DB where
  users : List UserRow
  products : List ProductRow
  variants : List VariantRow
  coupons : List CouponRow
  orders : List OrderRow
  order_items : List OrderItemRow
  nextUserId : Nat
  nextOrderId : Nat
  now : ℚ
deriving DecidableEq, Repr

/-- One requested line item.  JSON fields may be absent (`Option`); a JS
`variantId: 0` is present but falsy, which the source's `if (it.variantId)`
sends down the SKU branch. -/
structure ItemReq where
  variantId : Option Nat
  productSku : String
  grams : ℚ
  qty : Option ℚ
deriving DecidableEq, Repr

/-- The checkout request body.  `items = none` models a missing or
non-array `items` field (`!Array.isArray(items)`); the other fields default
to `""` in the source's destructuring. -/
structure CheckoutReq where
  email : String
  phone : String
  items : Option (List ItemReq)
  couponCode : String
  sessionId : String
deriving DecidableEq, Repr

/-- SQL `SELECT id FROM users WHERE email=?` — the handler uses the first row. -/
def findUserByEmail (db : DB) (email : String) : Option UserRow :=
  db.users.find? (fun u => u.email == email)

/-- SQL `SELECT id, price FROM product_variants WHERE id=?`. -/
def findVariantById (db : DB) (vid : Nat) : Option VariantRow :=
  db.variants.find? (fun v => v.id == vid)

/-- SQL `SELECT v.id, v.price FROM product_variants v JOIN products p ON
p.id=v.product_id WHERE p.sku=? AND v.grams=? LIMIT 1`. -/
def findVariantBySku (db : DB) (sku : String) (grams : ℚ) : Option VariantRow :=
  db.variants.find? (fun v =>
    (db.products.any (fun p => p.id == v.product_id && p.sku == sku)) && v.grams == grams)

/-- SQL `SELECT ... FROM coupons WHERE code=?` — first row. -/
def findCoupon (db : DB) (code : String) : Option CouponRow :=
  db.coupons.find? (fun c => c.code == code)

/-- The SQL expression `(expires_at IS NULL OR expires_at > NOW()) AS valid`. -/
def couponTimeValid (db : DB) (c : CouponRow) : Bool :=
  match c.expires_at with
  | none => true
  | some t => db.now < t

/-- Line 124: `const qty = Math.max(1, Number(it.qty || 1));` — an absent
or falsy (`0`) qty becomes `1`, anything else is clamped below by `1`.
Note: no rounding to an integer happens. -/
def coerceQty (q : Option ℚ) : ℚ :=
  match q with
  | none => 1
  | some q => if q = 0 then 1 else max 1 q

/-- JS `Math.round` (half-up, i.e. toward +∞): `⌊x + 1/2⌋`. -/
def jsRound (x : ℚ) : ℚ := (⌊x + (1 : ℚ)/2⌋ : ℤ)

/-- JS `Math.round(x * 100) / 100` — round to 2 decimal places. -/
def round2 (x : ℚ) : ℚ := jsRound (x * 100) / 100

/-- Whether `if (it.variantId)` takes the by-id branch: the field must be
present and truthy (nonzero). -/
def variantIdTruthy (it : ItemReq) : Bool :=
  match it.variantId with
  | some v => v != 0
  | none => false

/-- Lines 109–121: dispatch a line item to the by-id or by-SKU lookup. -/
def lookupVariant (db : DB) (it : ItemReq) : Option VariantRow :=
  if variantIdTruthy it then
    findVariantById db (it.variantId.getD 0)
  else
    findVariantBySku db it.productSku it.grams

/-- An entry of the source's `resolved` array: `{ variantId: row.id, qty, unit }`. -/
structure ResolvedItem where
  variantId : Nat
  qty : ℚ
  unit : Money
deriving DecidableEq, Repr

/-- Lines 104–128: the resolution loop.  Throws `'Variant not found'` at the
first item with no row; otherwise accumulates `resolved` and
`subtotal += qty * unit`. -/
def resolveItems (db : DB) : List ItemReq → Except String (List ResolvedItem × ℚ)
  | [] => .ok ([], 0)
  | it :: rest =>
    match lookupVariant db it with
    | none => .error "Variant not found"
    | some row =>
      let qty := coerceQty it.qty
      let unit := row.price
      match resolveItems db rest with
      | .error e => .error e
      | .ok (rs, sub) => .ok (⟨row.id, qty, unit⟩ :: rs, qty * unit + sub)

/-- Lines 131–144: the coupon block.  `discount` stays `0` unless the code
is non-empty, a row exists, `is_active`, time-valid, and
`subtotal >= min_subtotal`; then percent coupons give
`Math.round(subtotal * (value/100) * 100)/100`, fixed ones give `value`,
clamped by `Math.min(discount, subtotal)`. -/
def computeDiscount (db : DB) (couponCode : String) (subtotal : ℚ) : ℚ :=
  if couponCode = "" then 0
  else
    match findCoupon db couponCode with
    | none => 0
    | some c =>
      if c.is_active && couponTimeValid db c && decide (c.min_subtotal ≤ subtotal) then
        let d := if c.discount_type = "percent"
          then round2 (subtotal * (c.value / 100))
          else c.value
        min d subtotal
      else 0

/-- Lines 89–101: find/create user by email (optional). -/
def resolveUser (db : DB) (email phone : String) : Option Nat × DB :=
  if email = "" then (none, db)
  else
    match findUserByEmail db email with
    | some u => (some u.id, db)
    | none =>
      let uid := db.nextUserId
      (some uid,
        { db with
            users := db.users ++ [⟨uid, "", "", email, phone, ""⟩],
            nextUserId := db.nextUserId + 1 })

/-- The success payload `{ orderId, subtotal, discount, total }`. -/
structure TxResult where
  orderId : Nat
  subtotal : ℚ
  discount : ℚ
  total : ℚ
deriving DecidableEq, Repr

/-- Lines 87–161: the body of the `try` block — steps 1–5 of the checkout
transaction, threading the store state.  `.error` is a thrown exception
(caught at line 163). -/
def runCheckoutTx (req : CheckoutReq) (items : List ItemReq) (db : DB) :
    Except String (TxResult × DB) :=
  let p := resolveUser db req.email req.phone
  let userId := p.1
  let db1 := p.2
  match resolveItems db1 items with
  | .error e => .error e
  | .ok (resolved, subtotal) =>
    let discount := computeDiscount db1 req.couponCode subtotal
    let total := max 0 (subtotal - discount)
    let orderId := db1.nextOrderId
    let db2 := { db1 with
        orders := db1.orders ++
          [OrderRow.mk orderId userId req.sessionId total "created" none],
        nextOrderId := db1.nextOrderId + 1 }
    let db3 := { db2 with
        order_items := db2.order_items ++
          resolved.map (fun r => OrderItemRow.mk orderId r.variantId r.qty r.unit) }
    .ok (⟨orderId, subtotal, discount, total⟩, db3)

/-- A JSON response body: `{ok:true, orderId, subtotal, discount, total}`
or `{ok:false, error}`. -/
inductive RespBody
  | okBody (orderId : Nat) (subtotal discount total : ℚ)
  | errBody (error : String)
deriving DecidableEq, Repr

/-- Connection-pool traffic of one invocation. -/
inductive PoolOp
  | acquire
  | release
deriving DecidableEq, Repr

/-- What one handler invocation produces: HTTP status, JSON body, the store
after the call (post commit or rollback), and the pool events. -/
structure HandlerResult where
  status : Nat
  body : RespBody
  db : DB
  poolOps : List PoolOp
deriving DecidableEq, Repr

/-- Lines 80–170: `POST /api/checkout`.  Validation happens before
`pool.getConnection()`; the `catch` does `conn.rollback()` (the original
store survives) and answers 500 with the error message; the `finally`
releases the connection on both paths. -/
def checkoutHandler (req : CheckoutReq) (db : DB) : HandlerResult :=
  match req.items with
  | none => ⟨400, .errBody "Cart is empty", db, []⟩
  | some [] => ⟨400, .errBody "Cart is empty", db, []⟩
  | some items =>
    match runCheckoutTx req items db with
    | .ok (r, db2) =>
      ⟨200, .okBody r.orderId r.subtotal r.discount r.total, db2, [.acquire, .release]⟩
    | .error e =>
      ⟨500, .errBody e, db, [.acquire, .release]⟩

/-- The coupon eligibility test exactly as the spec words it: the row is
`is_active`, `expires_at` is NULL or lies strictly after `now`, and the
subtotal meets `min_subtotal`.  Spec-side definition, kept for comparison
against the source-side `computeDiscount`. -/
def specCouponEligible (db : DB) (c : CouponRow) (subtotal : ℚ) : Bool :=
  c.is_active &&
    (match c.expires_at with
     | none => true
     | some t => decide (db.now < t)) &&
    decide (c.min_subtotal ≤ subtotal)

/-- The discount amount as the spec words it: `round(subtotal × value/100,
2 decimal places)` for a percent coupon, `value` directly for a fixed one.
Spec-side definition. -/
def specDiscountAmount (c : CouponRow) (subtotal : ℚ) : ℚ :=
  if c.discount_type = "percent" then round2 (subtotal * c.value / 100) else c.value

/-- The whole coupon policy as the spec words it: look the code up, apply
the amount clamped to the subtotal when eligible, otherwise (row missing or
any condition failing) keep the discount at `0`.  Spec-side definition. -/
def specDiscount (db : DB) (code : String) (subtotal : ℚ) : ℚ :=
  match findCoupon db code with
  | none => 0
  | some c =>
    if specCouponEligible db c subtotal
    then min (specDiscountAmount c subtotal) subtotal
    else 0

def sampleDB : DB where
  users := []
  products := [⟨1, "ABC"⟩]
  variants := [⟨1, 1, 500, 25⟩]
  coupons := [⟨"SAVE10", "percent", 10, 0, true, none⟩]
  orders := []
  order_items := []
  nextUserId := 7
  nextOrderId := 40
  now := 1000

def sampleItems : List ItemReq := [⟨some 1, "", 0, some 2⟩]

def sampleReq : CheckoutReq where
  email := ""
  phone := ""
  items := some sampleItems
  couponCode := "SAVE10"
  sessionId := "s1"

/-- The store `sampleReq` leaves behind: one order of total 45 (subtotal 50,
10% coupon) and one order item. -/
def sampleTxDB : DB :=
  { sampleDB with
      orders := [⟨40, none, "s1", 45, "created", none⟩],
      order_items := [⟨40, 1, 2, 25⟩],
      nextOrderId := 41 }

/-- A request whose single item cannot resolve (unknown SKU), with a
non-empty email that is new to the store: the transaction inserts a user,
then throws at resolution. -/
def failReq : CheckoutReq where
  email := "new@x.io"
  phone := "123"
  items := some [⟨none, "ZZZ", 100, none⟩]
  couponCode := ""
  sessionId := "s2"

/-- An active, unexpired percent coupon whose stored value is 0. -/
def zeroCoupon : CouponRow := ⟨"ZERO", "percent", 0, 0, true, none⟩

def dbZero : DB := { sampleDB with coupons := [zeroCoupon] }

def reqZero : CheckoutReq :=
  { sampleReq with couponCode := "ZERO" }

/-- A single item with a fractional quantity 5/2. -/
def fracReq : CheckoutReq where
  email := ""
  phone := ""
  items := some [⟨some 1, "", 0, some (5/2)⟩]
  couponCode := ""
  sessionId := "s3"

/-- An active fixed coupon whose stored value is −5. -/
def negDB : DB := { sampleDB with coupons := [⟨"NEG", "fixed", -5, 0, true, none⟩] }

def negReq : CheckoutReq where
  email := ""
  phone := ""
  items := some [⟨some 1, "", 0, none⟩]
  couponCode := "NEG"
  sessionId := "s4"

/-- A store holding a variant with id 0 (price 11) and a variant reachable
by SKU "ABC" at 500 g (price 22). -/
def zeroIdDB : DB :=
  { sampleDB with variants := [⟨0, 99, 500, 11⟩, ⟨2, 1, 500, 22⟩] }

/-- An item carrying `variantId: 0` (present but falsy) together with a
resolvable SKU. -/
def zeroReq : CheckoutReq where
  email := ""
  phone := ""
  items := some [⟨some 0, "ABC", 500, none⟩]
  couponCode := ""
  sessionId := "s5"

/-- A request whose `items` field is missing or not an array. -/
def noItemsReq : CheckoutReq where
  email := "a@b.c"
  phone := ""
  items := none
  couponCode := ""
  sessionId := "s6"

/-! ## Helper lemmas -/

/-- The step `resolveUser` touches only `users` and `nextUserId`. -/
theorem resolveUser_frame (db : DB) (e p : String) :
    (resolveUser db e p).2.products = db.products ∧
    (resolveUser db e p).2.variants = db.variants ∧
    (resolveUser db e p).2.coupons = db.coupons ∧
    (resolveUser db e p).2.orders = db.orders ∧
    (resolveUser db e p).2.order_items = db.order_items ∧
    (resolveUser db e p).2.nextOrderId = db.nextOrderId ∧
    (resolveUser db e p).2.now = db.now ∧
    (∃ t, (resolveUser db e p).2.users = db.users ++ t) := by
  unfold resolveUser
  split
  · exact ⟨rfl, rfl, rfl, rfl, rfl, rfl, rfl, [], by simp⟩
  · cases h : findUserByEmail db e
    · exact ⟨rfl, rfl, rfl, rfl, rfl, rfl, rfl, _, rfl⟩
    · exact ⟨rfl, rfl, rfl, rfl, rfl, rfl, rfl, [], by simp⟩

/-- The lookup `lookupVariant` only reads the `products` and `variants` tables. -/
theorem lookupVariant_congr (db db' : DB) (it : ItemReq)
    (h1 : db'.variants = db.variants) (h2 : db'.products = db.products) :
    lookupVariant db' it = lookupVariant db it := by
  simp [lookupVariant, findVariantById, findVariantBySku, h1, h2]

/-- The loop `resolveItems` only reads the `products` and `variants` tables. -/
theorem resolveItems_congr (db db' : DB) (items : List ItemReq)
    (h1 : db'.variants = db.variants) (h2 : db'.products = db.products) :
    resolveItems db' items = resolveItems db items := by
  induction items with
  | nil => rfl
  | cons it rest ih =>
      simp only [resolveItems, lookupVariant_congr db db' it h1 h2, ih]

/-- The block `computeDiscount` only reads the `coupons` table and the clock. -/
theorem computeDiscount_congr (db db' : DB) (code : String) (s : ℚ)
    (h1 : db'.coupons = db.coupons) (h2 : db'.now = db.now) :
    computeDiscount db' code s = computeDiscount db code s := by
  simp [computeDiscount, findCoupon, couponTimeValid, h1, h2]

/-- A resolved row comes from the `product_variants` table. -/
theorem lookupVariant_mem (db : DB) (it : ItemReq) (row : VariantRow)
    (h : lookupVariant db it = some row) : row ∈ db.variants := by
  unfold lookupVariant at h
  split at h
  · exact List.mem_of_find?_eq_some h
  · exact List.mem_of_find?_eq_some h

/-- When every item resolves, the loop returns the mapped `resolved` array
and the sum of `qty × unit_price`. -/
theorem resolveItems_of_all_some (db : DB) (items : List ItemReq)
    (vfn : ItemReq → VariantRow)
    (h : ∀ it ∈ items, lookupVariant db it = some (vfn it)) :
    resolveItems db items =
      .ok (items.map (fun it => ⟨(vfn it).id, coerceQty it.qty, (vfn it).price⟩),
           (items.map (fun it => coerceQty it.qty * (vfn it).price)).sum) := by
  induction items with
  | nil => simp [resolveItems]
  | cons it rest ih =>
      have hh := h it (List.mem_cons_self it rest)
      have ht := ih (fun x hx => h x (List.mem_cons_of_mem it hx))
      simp [resolveItems, hh, ht]

/-- If some requested item has no catalog row, the loop throws
`'Variant not found'`. -/
theorem resolveItems_error_of_none (db : DB) (items : List ItemReq)
    (it : ItemReq) (hmem : it ∈ items) (hn : lookupVariant db it = none) :
    resolveItems db items = .error "Variant not found" := by
  induction items with
  | nil => cases hmem
  | cons a rest ih =>
      rcases List.mem_cons.mp hmem with h | h
      · subst h
        simp [resolveItems, hn]
      · cases ha : lookupVariant db a
        · simp [resolveItems, ha]
        · simp [resolveItems, ha, ih h]

/-- The only error the loop can throw is `'Variant not found'`. -/
theorem resolveItems_error_msg (db : DB) (items : List ItemReq) (e : String)
    (h : resolveItems db items = .error e) : e = "Variant not found" := by
  induction items with
  | nil => simp [resolveItems] at h
  | cons a rest ih =>
      unfold resolveItems at h
      cases ha : lookupVariant db a
      · simp [ha] at h
        exact h.symm
      · simp [ha] at h
        cases ht : resolveItems db rest
        · simp [ht] at h
          exact ih (ht.trans (by rw [h]))
        · simp [ht] at h

/-- A success of the loop resolves exactly one entry per requested item. -/
theorem resolveItems_ok_length (db : DB) (items : List ItemReq)
    (rs : List ResolvedItem) (s : ℚ)
    (h : resolveItems db items = .ok (rs, s)) : rs.length = items.length := by
  induction items generalizing rs s with
  | nil =>
      simp [resolveItems] at h
      simp [h.1.symm]
  | cons a rest ih =>
      unfold resolveItems at h
      cases ha : lookupVariant db a
      · simp [ha] at h
      · rw [ha] at h
        cases ht : resolveItems db rest with
        | error e => simp [ht] at h
        | ok p =>
            rw [ht] at h
            simp at h
            rcases h with ⟨h1, _⟩
            simp [← h1, ih p.1 p.2 (by rw [ht])]

/-- Each success entry of the loop pairs a table row's price with a
quantity ≥ 1. -/
theorem resolveItems_ok_entries (db : DB) (items : List ItemReq)
    (rs : List ResolvedItem) (s : ℚ)
    (h : resolveItems db items = .ok (rs, s)) :
    (∀ r ∈ rs, (∃ v ∈ db.variants, r.unit = v.price) ∧ 1 ≤ r.qty) ∧
      s = (rs.map (fun r => r.qty * r.unit)).sum := by
  induction items generalizing rs s with
  | nil =>
      simp [resolveItems] at h
      rcases h with ⟨h1, h2⟩
      subst h1
      simp [← h2]
  | cons a rest ih =>
      unfold resolveItems at h
      cases ha : lookupVariant db a
      · simp [ha] at h
      · rw [ha] at h
        cases ht : resolveItems db rest with
        | error e => simp [ht] at h
        | ok p =>
            rw [ht] at h
            simp at h
            rcases h with ⟨h1, h2⟩
            have hrest := ih p.1 p.2 (by rw [ht])
            constructor
            · intro r hr
              rw [← h1] at hr
              rcases List.mem_cons.mp hr with hr | hr
              · subst hr
                refine ⟨⟨_, lookupVariant_mem db a _ ha, rfl⟩, ?_⟩
                unfold coerceQty
                cases a.qty with
                | none => simp
                | some q =>
                    simp only []
                    split
                    · simp
                    · exact le_max_left 1 q
              · exact hrest.1 r hr
            · rw [← h2, ← h1]
              simp [hrest.2]

/-- A resolution failure is the transaction's failure (rollback path). -/
theorem runCheckoutTx_error_def (req : CheckoutReq) (items : List ItemReq)
    (db : DB) (e : String) (h : resolveItems db items = .error e) :
    runCheckoutTx req items db = .error e := by
  obtain ⟨hp, hv, hc, ho, hoi, hnext, hnow, hu⟩ := resolveUser_frame db req.email req.phone
  have hres := resolveItems_congr db _ items hv hp
  simp only [runCheckoutTx]
  rw [hres, h]

/-- On resolution success the transaction commits: explicit value of the
payload and of the store it leaves behind. -/
theorem runCheckoutTx_ok_def (req : CheckoutReq) (items : List ItemReq)
    (db : DB) (rs : List ResolvedItem) (s : ℚ)
    (h : resolveItems db items = .ok (rs, s)) :
    runCheckoutTx req items db =
      .ok (⟨db.nextOrderId, s, computeDiscount db req.couponCode s,
            max 0 (s - computeDiscount db req.couponCode s)⟩,
           { (resolveUser db req.email req.phone).2 with
               orders := db.orders ++
                 [OrderRow.mk db.nextOrderId (resolveUser db req.email req.phone).1
                   req.sessionId
                   (max 0 (s - computeDiscount db req.couponCode s)) "created" none],
               nextOrderId := db.nextOrderId + 1,
               order_items := db.order_items ++
                 rs.map (fun x => OrderItemRow.mk db.nextOrderId x.variantId x.qty x.unit) }) := by
  obtain ⟨hp, hv, hc, ho, hoi, hnext, hnow, hu⟩ := resolveUser_frame db req.email req.phone
  have hres := resolveItems_congr db _ items hv hp
  have hd := computeDiscount_congr db _ req.couponCode s hc hnow
  simp only [runCheckoutTx]
  rw [hres, h]
  simp only [hd, ho, hoi, hnext]

/-- JS `Math.round` of a nonnegative number is nonnegative. -/
theorem jsRound_nonneg (x : ℚ) (h : 0 ≤ x) : 0 ≤ jsRound x := by
  unfold jsRound
  have : (0 : ℤ) ≤ ⌊x + (1 : ℚ)/2⌋ := Int.le_floor.mpr (by push_cast; linarith)
  exact_mod_cast this

/-- Rounding to 2 decimals keeps nonnegativity. -/
theorem round2_nonneg (x : ℚ) (h : 0 ≤ x) : 0 ≤ round2 x := by
  unfold round2
  have := jsRound_nonneg (x * 100) (by positivity)
  positivity

/-- If every stored coupon value is nonnegative and the subtotal is
nonnegative, the computed discount lies in `[0, subtotal]`. -/
theorem computeDiscount_bounds (db : DB) (code : String) (s : ℚ)
    (hs : 0 ≤ s) (hv : ∀ c ∈ db.coupons, 0 ≤ c.value) :
    0 ≤ computeDiscount db code s ∧ computeDiscount db code s ≤ s := by
  by_cases hcode : code = ""
  · simp only [computeDiscount, if_pos hcode]
    exact ⟨le_refl 0, hs⟩
  · cases hf : findCoupon db code with
    | none =>
        simp only [computeDiscount, if_neg hcode, hf]
        exact ⟨le_refl 0, hs⟩
    | some c =>
        have hval := hv c (List.mem_of_find?_eq_some hf)
        by_cases hel : (c.is_active && couponTimeValid db c && decide (c.min_subtotal ≤ s)) = true
        · simp only [computeDiscount, if_neg hcode, hf, if_pos hel]
          constructor
          · refine le_min ?_ hs
            by_cases hpc : c.discount_type = "percent"
            · rw [if_pos hpc]
              exact round2_nonneg _ (by positivity)
            · rw [if_neg hpc]
              exact hval
          · exact min_le_right _ s
        · simp only [computeDiscount, if_neg hcode, hf, if_neg hel]
          exact ⟨le_refl 0, hs⟩

/-- Nonnegative catalog prices make the accumulated subtotal nonnegative. -/
theorem resolveItems_subtotal_nonneg (db : DB) (items : List ItemReq)
    (rs : List ResolvedItem) (s : ℚ)
    (h : resolveItems db items = .ok (rs, s))
    (hp : ∀ v ∈ db.variants, 0 ≤ v.price) : 0 ≤ s := by
  obtain ⟨hent, hsum⟩ := resolveItems_ok_entries db items rs s h
  rw [hsum]
  refine List.sum_nonneg ?_
  intro x hx
  rw [List.mem_map] at hx
  obtain ⟨r, hr, hxe⟩ := hx
  obtain ⟨⟨v, hvmem, hup⟩, hq⟩ := hent r hr
  have h0 : (0:ℚ) ≤ r.qty := le_trans zero_le_one hq
  have h1 : (0:ℚ) ≤ r.unit := hup ▸ hp v hvmem
  rw [← hxe]
  exact mul_nonneg h0 h1

/-- Refinement: on a non-empty coupon code the source's discount block
computes exactly the spec's coupon policy. -/
theorem computeDiscount_eq_spec (db : DB) (code : String) (s : ℚ)
    (h : code ≠ "") : computeDiscount db code s = specDiscount db code s := by
  unfold computeDiscount specDiscount specCouponEligible specDiscountAmount couponTimeValid
  rw [if_neg h]
  cases hf : findCoupon db code with
  | none => rfl
  | some c => simp [mul_div_assoc]

/-! ## Claim theorems -/

/-- C1: for every checkout request that passes validation, if an exception
is thrown inside the transaction (steps 1–5), the handler answers HTTP 500
with `{ok:false, error:<message>}` and the whole store is as before the
call — no order row, no order_items rows, and no newly created user row
persist (the rollback also undoes a user insert made earlier in the same
call). -/
theorem checkout_error_rolls_back (req : CheckoutReq) (db : DB)
    (items : List ItemReq) (e : String)
    (h1 : req.items = some items) (h2 : items ≠ [])
    (h3 : runCheckoutTx req items db = .error e) :
    (checkoutHandler req db).status = 500 ∧
    (checkoutHandler req db).body = .errBody e ∧
    (checkoutHandler req db).db = db ∧
    (checkoutHandler req db).db.orders = db.orders ∧
    (checkoutHandler req db).db.order_items = db.order_items ∧
    (checkoutHandler req db).db.users = db.users := by
  rcases items with _ | ⟨it, rest⟩
  · exact absurd rfl h2
  · simp [checkoutHandler, h1, h3]

/-- C1 witness: a request with a fresh non-empty email whose only item has
an unknown SKU: the transaction inserts a user and then throws, and the
handler leaves `sampleDB` untouched. -/
theorem checkout_error_rolls_back_witness :
    (checkoutHandler failReq sampleDB).status = 500 ∧
    (checkoutHandler failReq sampleDB).body = .errBody "Variant not found" ∧
    (checkoutHandler failReq sampleDB).db = sampleDB ∧
    (checkoutHandler failReq sampleDB).db.orders = sampleDB.orders ∧
    (checkoutHandler failReq sampleDB).db.order_items = sampleDB.order_items ∧
    (checkoutHandler failReq sampleDB).db.users = sampleDB.users :=
  checkout_error_rolls_back failReq sampleDB [⟨none, "ZZZ", 100, none⟩] "Variant not found"
    rfl (by simp)
    (by simp [runCheckoutTx, resolveUser, findUserByEmail, failReq, sampleDB,
          resolveItems, lookupVariant, variantIdTruthy, findVariantBySku])

/-- C8: a request whose `items` is missing, not an array, or empty is
answered HTTP 400 with exactly `{ok:false, error:"Cart is empty"}`, the
store is untouched, and no pool connection is ever acquired (all store
access in the source goes through the acquired connection, so nothing is
read or written). -/
theorem empty_cart_rejected_locally (req : CheckoutReq) (db : DB)
    (h : req.items = none ∨ req.items = some []) :
    checkoutHandler req db = ⟨400, .errBody "Cart is empty", db, []⟩ := by
  rcases h with h | h <;> simp [checkoutHandler, h]

/-- C8 witness: a request with no `items` field. -/
theorem empty_cart_rejected_locally_witness :
    checkoutHandler noItemsReq sampleDB = ⟨400, .errBody "Cart is empty", sampleDB, []⟩ :=
  empty_cart_rejected_locally noItemsReq sampleDB (Or.inl rfl)

/-- C9: every invocation that passes validation (and hence acquires a
connection) releases it exactly once, on the success path and on the error
path alike. -/
theorem connection_released_exactly_once (req : CheckoutReq) (db : DB)
    (items : List ItemReq) (h1 : req.items = some items) (h2 : items ≠ []) :
    (checkoutHandler req db).poolOps = [.acquire, .release] ∧
    (checkoutHandler req db).poolOps.count .release = 1 ∧
    (checkoutHandler req db).poolOps.count .acquire = 1 := by
  rcases items with _ | ⟨it, rest⟩
  · exact absurd rfl h2
  · have hops : (checkoutHandler req db).poolOps = [.acquire, .release] := by
      cases htx : runCheckoutTx req (it :: rest) db <;> simp [checkoutHandler, h1, htx]
    refine ⟨hops, ?_, ?_⟩ <;> rw [hops] <;> decide

/-- C9 witness: the sample checkout acquires and releases exactly once. -/
theorem connection_released_exactly_once_witness :
    (checkoutHandler sampleReq sampleDB).poolOps = [.acquire, .release] ∧
    (checkoutHandler sampleReq sampleDB).poolOps.count .release = 1 ∧
    (checkoutHandler sampleReq sampleDB).poolOps.count .acquire = 1 :=
  connection_released_exactly_once sampleReq sampleDB sampleItems rfl (by simp [sampleItems])

/-- C10: checkout only ever appends rows: `products`, `product_variants`
and `coupons` are read-only, `users`, `orders` and `order_items` only grow
by appending, and every pre-existing user row survives with all its fields
unchanged (in particular, a different phone in the request never overwrites
a stored phone). -/
theorem checkout_insert_only (req : CheckoutReq) (db : DB) :
    (checkoutHandler req db).db.products = db.products ∧
    (checkoutHandler req db).db.variants = db.variants ∧
    (checkoutHandler req db).db.coupons = db.coupons ∧
    (∃ t, (checkoutHandler req db).db.users = db.users ++ t) ∧
    (∃ t, (checkoutHandler req db).db.orders = db.orders ++ t) ∧
    (∃ t, (checkoutHandler req db).db.order_items = db.order_items ++ t) ∧
    (∀ u ∈ db.users, u ∈ (checkoutHandler req db).db.users) := by
  have base : ∀ d : DB, d = db →
      d.products = db.products ∧ d.variants = db.variants ∧ d.coupons = db.coupons ∧
      (∃ t, d.users = db.users ++ t) ∧ (∃ t, d.orders = db.orders ++ t) ∧
      (∃ t, d.order_items = db.order_items ++ t) ∧ (∀ u ∈ db.users, u ∈ d.users) := by
    rintro d rfl
    exact ⟨rfl, rfl, rfl, ⟨[], by simp⟩, ⟨[], by simp⟩, ⟨[], by simp⟩,
      fun u hu => hu⟩
  rcases hi : req.items with _ | ⟨_ | ⟨it, rest⟩⟩
  · exact base _ (by simp [checkoutHandler, hi])
  · exact base _ (by simp [checkoutHandler, hi])
  · cases hres : resolveItems db (it :: rest) with
    | error e =>
        have htx := runCheckoutTx_error_def req (it :: rest) db e hres
        exact base _ (by simp [checkoutHandler, hi, htx])
    | ok p =>
        have htx := runCheckoutTx_ok_def req (it :: rest) db p.1 p.2 (by rw [hres])
        obtain ⟨hp, hv, hc, ho, hoi, hnext, hnow, t, hu⟩ :=
          resolveUser_frame db req.email req.phone
        have hdb : (checkoutHandler req db).db =
            { (resolveUser db req.email req.phone).2 with
                orders := db.orders ++
                  [OrderRow.mk db.nextOrderId (resolveUser db req.email req.phone).1
                    req.sessionId
                    (max 0 (p.2 - computeDiscount db req.couponCode p.2)) "created" none],
                nextOrderId := db.nextOrderId + 1,
                order_items := db.order_items ++
                  p.1.map (fun x => OrderItemRow.mk db.nextOrderId x.variantId x.qty x.unit) } := by
          simp [checkoutHandler, hi, htx]
        rw [hdb]
        refine ⟨hp, hv, hc, ⟨t, hu⟩, ⟨_, rfl⟩, ⟨_, rfl⟩, ?_⟩
        intro u huu
        simp only [hu]
        exact List.mem_append_left t huu

/-- Evaluation: the sample items resolve to one entry of qty 2 at price 25. -/
theorem sample_resolve_eval :
    resolveItems sampleDB sampleItems = .ok ([⟨1, 2, 25⟩], 50) := by
  simp [resolveItems, sampleItems, lookupVariant, variantIdTruthy, findVariantById,
    sampleDB, coerceQty]
  norm_num

/-- Evaluation: SAVE10 takes 10% off a subtotal of 50. -/
theorem sample_discount_eval : computeDiscount sampleDB "SAVE10" 50 = 5 := by
  simp [computeDiscount, findCoupon, sampleDB, couponTimeValid, round2, jsRound]
  norm_num

/-- C5: a checkout whose items all resolve succeeds: the response is
`{ok:true, orderId, subtotal, discount, total}` with
`total = max 0 (subtotal − discount) ≥ 0`, exactly one order row is
appended (that user id, the request's session id, the total, status
"created", null payment reference) carrying the generated id, and exactly
one order_items row is appended per resolved line item, each referencing
that generated id. -/
theorem checkout_success_persists (req : CheckoutReq) (db : DB)
    (items : List ItemReq) (rs : List ResolvedItem) (s : ℚ)
    (h1 : req.items = some items) (h2 : items ≠ [])
    (h3 : resolveItems db items = .ok (rs, s)) :
    ∃ d2 : DB,
      checkoutHandler req db = ⟨200,
        .okBody db.nextOrderId s (computeDiscount db req.couponCode s)
          (max 0 (s - computeDiscount db req.couponCode s)), d2, [.acquire, .release]⟩ ∧
      0 ≤ max 0 (s - computeDiscount db req.couponCode s) ∧
      d2.orders = db.orders ++
        [OrderRow.mk db.nextOrderId (resolveUser db req.email req.phone).1 req.sessionId
          (max 0 (s - computeDiscount db req.couponCode s)) "created" none] ∧
      d2.order_items = db.order_items ++
        rs.map (fun x => OrderItemRow.mk db.nextOrderId x.variantId x.qty x.unit) ∧
      rs.length = items.length := by
  rcases items with _ | ⟨it, rest⟩
  · exact absurd rfl h2
  · have htx := runCheckoutTx_ok_def req (it :: rest) db rs s h3
    refine ⟨{ (resolveUser db req.email req.phone).2 with
        orders := db.orders ++
          [OrderRow.mk db.nextOrderId (resolveUser db req.email req.phone).1 req.sessionId
            (max 0 (s - computeDiscount db req.couponCode s)) "created" none],
        nextOrderId := db.nextOrderId + 1,
        order_items := db.order_items ++
          rs.map (fun x => OrderItemRow.mk db.nextOrderId x.variantId x.qty x.unit) },
      ?_, le_max_left 0 _, rfl, rfl, ?_⟩
    · simp [checkoutHandler, h1, htx]
    · exact resolveItems_ok_length db (it :: rest) rs s h3

/-- C5 witness: the sample checkout answers
`{ok:true, orderId:40, subtotal:50, discount:5, total:45}` and appends the
expected order and order-item rows. -/
theorem checkout_success_persists_witness :
    ∃ d2 : DB,
      checkoutHandler sampleReq sampleDB =
        ⟨200, .okBody 40 50 5 45, d2, [.acquire, .release]⟩ ∧
      d2.orders = [OrderRow.mk 40 none "s1" 45 "created" none] ∧
      d2.order_items = [OrderItemRow.mk 40 1 2 25] := by
  obtain ⟨d2, hh, _, ho, hoi, _⟩ :=
    checkout_success_persists sampleReq sampleDB sampleItems [⟨1, 2, 25⟩] 50
      rfl (by simp [sampleItems]) sample_resolve_eval
  have hd : computeDiscount sampleDB sampleReq.couponCode 50 = 5 := sample_discount_eval
  rw [hd] at hh ho
  refine ⟨d2, ?_, ?_, ?_⟩
  · rw [hh]
    norm_num [sampleDB]
  · rw [ho]
    simp [sampleDB, sampleReq, resolveUser]
    norm_num
  · rw [hoi]
    simp [sampleDB]

/-- C6: user resolution on a successful checkout: a non-empty email that
matches a stored user reuses its id and inserts nothing; a non-empty email
with no match inserts exactly one user row (empty names, the given email
and phone, empty password hash) and uses the generated id; an empty email
leaves `users` untouched and puts a null user id on the order. -/
theorem checkout_user_resolution (req : CheckoutReq) (db : DB)
    (items : List ItemReq) (rs : List ResolvedItem) (s : ℚ)
    (h1 : req.items = some items) (h2 : items ≠ [])
    (h3 : resolveItems db items = .ok (rs, s)) :
    ∃ o : OrderRow, (checkoutHandler req db).db.orders = db.orders ++ [o] ∧
      (req.email = "" →
        o.user_id = none ∧ (checkoutHandler req db).db.users = db.users) ∧
      (∀ u, req.email ≠ "" → findUserByEmail db req.email = some u →
        o.user_id = some u.id ∧ (checkoutHandler req db).db.users = db.users) ∧
      (req.email ≠ "" → findUserByEmail db req.email = none →
        o.user_id = some db.nextUserId ∧
        (checkoutHandler req db).db.users =
          db.users ++ [UserRow.mk db.nextUserId "" "" req.email req.phone ""]) := by
  rcases items with _ | ⟨it, rest⟩
  · exact absurd rfl h2
  · have htx := runCheckoutTx_ok_def req (it :: rest) db rs s h3
    have hdb : (checkoutHandler req db).db =
        { (resolveUser db req.email req.phone).2 with
            orders := db.orders ++
              [OrderRow.mk db.nextOrderId (resolveUser db req.email req.phone).1
                req.sessionId
                (max 0 (s - computeDiscount db req.couponCode s)) "created" none],
            nextOrderId := db.nextOrderId + 1,
            order_items := db.order_items ++
              rs.map (fun x => OrderItemRow.mk db.nextOrderId x.variantId x.qty x.unit) } := by
      simp [checkoutHandler, h1, htx]
    refine ⟨_, by rw [hdb], ?_, ?_, ?_⟩
    · intro he
      rw [hdb]
      simp [resolveUser, he]
    · intro u hne hfind
      rw [hdb]
      simp [resolveUser, hne, hfind]
    · intro hne hfind
      rw [hdb]
      simp [resolveUser, hne, hfind]

/-- C6 witness: a successful checkout with the fresh email `new@x.io`
inserts exactly one user row with empty names, that email, the given
phone, an empty password hash, and id 7. -/
theorem checkout_user_resolution_witness :
    ∃ o : OrderRow,
      (checkoutHandler { sampleReq with email := "new@x.io", phone := "123" } sampleDB).db.orders =
        sampleDB.orders ++ [o] ∧
      o.user_id = some 7 ∧
      (checkoutHandler { sampleReq with email := "new@x.io", phone := "123" } sampleDB).db.users =
        sampleDB.users ++ [UserRow.mk 7 "" "" "new@x.io" "123" ""] := by
  obtain ⟨o, ho, _, _, hnew⟩ :=
    checkout_user_resolution { sampleReq with email := "new@x.io", phone := "123" } sampleDB
      sampleItems [⟨1, 2, 25⟩] 50 rfl (by simp [sampleItems]) sample_resolve_eval
  obtain ⟨hid, hu⟩ := hnew (by simp) (by simp [findUserByEmail, sampleDB])
  exact ⟨o, ho, by simpa [sampleDB] using hid, by simpa [sampleDB] using hu⟩

/-- C2 counterexample: `ZERO` is a coupon row that exists, is active, has
no expiry and no minimum, and the subtotal 50 meets every condition — yet
the applied discount is 0, not non-zero: "a non-zero discount is applied if
... conditions hold" fails at stored value 0. -/
theorem coupon_nonzero_iff_counterexample :
    findCoupon dbZero "ZERO" = some zeroCoupon ∧
    zeroCoupon.is_active = true ∧
    zeroCoupon.expires_at = none ∧
    zeroCoupon.min_subtotal ≤ 50 ∧
    reqZero.couponCode = "ZERO" ∧
    (checkoutHandler reqZero dbZero).status = 200 ∧
    (checkoutHandler reqZero dbZero).body = .okBody 40 50 0 50 := by
  refine ⟨by simp [findCoupon, dbZero, zeroCoupon], rfl, rfl,
    by norm_num [zeroCoupon], rfl, ?_, ?_⟩ <;>
  norm_num [checkoutHandler, reqZero, sampleReq, dbZero, zeroCoupon, runCheckoutTx,
    resolveUser, resolveItems, sampleItems, lookupVariant, variantIdTruthy,
    findVariantById, sampleDB, coerceQty, computeDiscount, findCoupon,
    couponTimeValid, round2, jsRound]

/-- C2 (amended): for every checkout with a non-empty couponCode whose
items all resolve, the checkout succeeds (a failed coupon condition never
reports an error), and the discount equals the spec's coupon policy: the
clamped formula amount — `min(round2(subtotal·value/100) | value, subtotal)`,
possibly zero — exactly when the row exists AND `is_active` AND
(`expires_at` is NULL or `> now`) AND `subtotal ≥ min_subtotal`, and 0
otherwise. -/
theorem coupon_policy (req : CheckoutReq) (db : DB)
    (items : List ItemReq) (rs : List ResolvedItem) (s : ℚ)
    (h1 : req.items = some items) (h2 : items ≠ [])
    (h3 : resolveItems db items = .ok (rs, s)) (h4 : req.couponCode ≠ "") :
    (checkoutHandler req db).status = 200 ∧
    (checkoutHandler req db).body =
      .okBody db.nextOrderId s (specDiscount db req.couponCode s)
        (max 0 (s - specDiscount db req.couponCode s)) := by
  rcases items with _ | ⟨it, rest⟩
  · exact absurd rfl h2
  · have htx := runCheckoutTx_ok_def req (it :: rest) db rs s h3
    have hspec := computeDiscount_eq_spec db req.couponCode s h4
    constructor
    · simp [checkoutHandler, h1, htx]
    · simp [checkoutHandler, h1, htx, hspec]

/-- C2 witness: the sample request carries coupon SAVE10 and gets the spec
discount of 5 on a subtotal of 50. -/
theorem coupon_policy_witness :
    (checkoutHandler sampleReq sampleDB).status = 200 ∧
    (checkoutHandler sampleReq sampleDB).body = .okBody 40 50 5 45 := by
  obtain ⟨hs, hb⟩ :=
    coupon_policy sampleReq sampleDB sampleItems [⟨1, 2, 25⟩] 50
      rfl (by simp [sampleItems]) sample_resolve_eval (by simp [sampleReq])
  have hd : specDiscount sampleDB sampleReq.couponCode 50 = 5 := by
    rw [← computeDiscount_eq_spec sampleDB sampleReq.couponCode 50 (by simp [sampleReq])]
    exact sample_discount_eval
  rw [hd] at hb
  refine ⟨hs, ?_⟩
  rw [hb]
  norm_num [sampleDB]

/-- C3 counterexample: a requested quantity of 5/2 is NOT coerced to an
integer: the checkout succeeds, stores quantity 5/2 in `order_items`, and
returns subtotal 125/2 — yet 5/2 is no integer. -/
theorem qty_integer_counterexample :
    (checkoutHandler fracReq sampleDB).status = 200 ∧
    (checkoutHandler fracReq sampleDB).db.order_items =
      [OrderItemRow.mk 40 1 (5/2) 25] ∧
    (checkoutHandler fracReq sampleDB).body = .okBody 40 (125/2) 0 (125/2) ∧
    ¬ ∃ n : ℤ, ((5 : ℚ)/2) = (n : ℚ) := by
  refine ⟨?_, ?_, ?_, ?_⟩
  · norm_num [checkoutHandler, fracReq, runCheckoutTx, resolveUser, resolveItems,
      lookupVariant, variantIdTruthy, findVariantById, sampleDB, coerceQty,
      computeDiscount]
  · norm_num [checkoutHandler, fracReq, runCheckoutTx, resolveUser, resolveItems,
      lookupVariant, variantIdTruthy, findVariantById, sampleDB, coerceQty,
      computeDiscount]
  · norm_num [checkoutHandler, fracReq, runCheckoutTx, resolveUser, resolveItems,
      lookupVariant, variantIdTruthy, findVariantById, sampleDB, coerceQty,
      computeDiscount]
  · rintro ⟨n, hn⟩
    have h2 : (2 : ℚ) * (n : ℚ) = 5 := by
      rw [← hn]
      ring
    have h3 : ((2 * n : ℤ) : ℚ) = ((5 : ℤ) : ℚ) := by
      push_cast
      linarith
    have h4 : (2 * n : ℤ) = 5 := by
      exact_mod_cast h3
    omega

/-- C3 (amended): when every item resolves, the checkout succeeds and the
returned subtotal is the sum over all items of `qty × unit_price`, where
`qty` is the requested quantity clamped below by 1 (1 when absent or 0 —
fractional quantities pass through unrounded) and `unit_price` is the
resolved variant's price; every coerced quantity is ≥ 1. -/
theorem subtotal_is_sum (req : CheckoutReq) (db : DB)
    (items : List ItemReq) (vfn : ItemReq → VariantRow)
    (h1 : req.items = some items) (h2 : items ≠ [])
    (h3 : ∀ it ∈ items, lookupVariant db it = some (vfn it)) :
    (checkoutHandler req db).status = 200 ∧
    (∃ d, (checkoutHandler req db).body =
        .okBody db.nextOrderId
          ((items.map (fun it => coerceQty it.qty * (vfn it).price)).sum) d
          (max 0 ((items.map (fun it => coerceQty it.qty * (vfn it).price)).sum - d))) ∧
    (∀ q : Option ℚ, 1 ≤ coerceQty q) := by
  have hres := resolveItems_of_all_some db items vfn h3
  rcases items with _ | ⟨it, rest⟩
  · exact absurd rfl h2
  · have htx := runCheckoutTx_ok_def req (it :: rest) db _ _ hres
    refine ⟨by simp [checkoutHandler, h1, htx],
      ⟨computeDiscount db req.couponCode
        (((it :: rest).map (fun it => coerceQty it.qty * (vfn it).price)).sum), ?_⟩, ?_⟩
    · simp only [checkoutHandler, h1, htx]
    intro q
    rcases q with _ | q
    · simp [coerceQty]
    · by_cases hq : q = 0
      · simp [coerceQty, hq]
      · simp only [coerceQty, if_neg hq]
        exact le_max_left 1 q

/-- C3 witness: the sample request's one item (qty 2 at price 25) gives the
sum 50. -/
theorem subtotal_is_sum_witness :
    (checkoutHandler sampleReq sampleDB).status = 200 ∧
    (∃ d, (checkoutHandler sampleReq sampleDB).body =
        .okBody sampleDB.nextOrderId
          ((sampleItems.map
            (fun it => coerceQty it.qty * ((fun _ => VariantRow.mk 1 1 500 25) it).price)).sum) d
          (max 0 ((sampleItems.map
            (fun it => coerceQty it.qty * ((fun _ => VariantRow.mk 1 1 500 25) it).price)).sum - d))) ∧
    (∀ q : Option ℚ, 1 ≤ coerceQty q) :=
  subtotal_is_sum sampleReq sampleDB sampleItems (fun _ => VariantRow.mk 1 1 500 25)
    rfl (by simp [sampleItems])
    (by
      intro it hit
      simp only [sampleItems, List.mem_singleton] at hit
      subst hit
      simp [lookupVariant, variantIdTruthy, findVariantById, sampleDB])

/-- C4 counterexample: with a stored fixed coupon value of −5 every claim
condition is met, yet the successful checkout computes discount −5 < 0 and
a total of 30 > subtotal: "0 ≤ discount ≤ subtotal regardless of the stored
value" fails. -/
theorem discount_bounds_counterexample :
    (checkoutHandler negReq negDB).status = 200 ∧
    (checkoutHandler negReq negDB).body = .okBody 40 25 (-5) 30 ∧
    ¬ (0 ≤ (-5 : ℚ)) := by
  refine ⟨?_, ?_, by norm_num⟩ <;>
  simp [checkoutHandler, negReq, negDB, runCheckoutTx, resolveUser, resolveItems,
    lookupVariant, variantIdTruthy, findVariantById, sampleDB, coerceQty,
    computeDiscount, findCoupon, couponTimeValid] <;>
  norm_num

/-- C4 (amended): on every successful checkout against a store whose coupon
values and variant prices are all nonnegative, the computed discount
satisfies `0 ≤ discount ≤ subtotal` (for arbitrary stored discount_type,
min_subtotal and expiry). -/
theorem discount_within_bounds (req : CheckoutReq) (db : DB)
    (items : List ItemReq) (rs : List ResolvedItem) (s : ℚ)
    (h1 : req.items = some items) (h2 : items ≠ [])
    (h3 : resolveItems db items = .ok (rs, s))
    (hcv : ∀ c ∈ db.coupons, 0 ≤ c.value)
    (hvp : ∀ v ∈ db.variants, 0 ≤ v.price) :
    ∃ d2 : DB,
      checkoutHandler req db = ⟨200,
        .okBody db.nextOrderId s (computeDiscount db req.couponCode s)
          (max 0 (s - computeDiscount db req.couponCode s)), d2, [.acquire, .release]⟩ ∧
      0 ≤ computeDiscount db req.couponCode s ∧
      computeDiscount db req.couponCode s ≤ s := by
  rcases items with _ | ⟨it, rest⟩
  · exact absurd rfl h2
  · have htx := runCheckoutTx_ok_def req (it :: rest) db rs s h3
    have hs : 0 ≤ s := resolveItems_subtotal_nonneg db (it :: rest) rs s h3 hvp
    obtain ⟨hlo, hhi⟩ := computeDiscount_bounds db req.couponCode s hs hcv
    refine ⟨{ (resolveUser db req.email req.phone).2 with
        orders := db.orders ++
          [OrderRow.mk db.nextOrderId (resolveUser db req.email req.phone).1 req.sessionId
            (max 0 (s - computeDiscount db req.couponCode s)) "created" none],
        nextOrderId := db.nextOrderId + 1,
        order_items := db.order_items ++
          rs.map (fun x => OrderItemRow.mk db.nextOrderId x.variantId x.qty x.unit) },
      ?_, hlo, hhi⟩
    simp [checkoutHandler, h1, htx]

/-- C4 witness: the sample store has nonnegative coupon values and prices,
and the sample checkout's discount 5 lies within [0, 50]. -/
theorem discount_within_bounds_witness :
    ∃ d2 : DB,
      checkoutHandler sampleReq sampleDB = ⟨200,
        .okBody sampleDB.nextOrderId 50 (computeDiscount sampleDB sampleReq.couponCode 50)
          (max 0 (50 - computeDiscount sampleDB sampleReq.couponCode 50)), d2,
          [.acquire, .release]⟩ ∧
      0 ≤ computeDiscount sampleDB sampleReq.couponCode 50 ∧
      computeDiscount sampleDB sampleReq.couponCode 50 ≤ 50 :=
  discount_within_bounds sampleReq sampleDB sampleItems [⟨1, 2, 25⟩] 50
    rfl (by simp [sampleItems]) sample_resolve_eval
    (by
      intro c hc
      simp only [sampleDB, List.mem_singleton] at hc
      subst hc
      norm_num)
    (by
      intro v hv
      simp only [sampleDB, List.mem_singleton] at hv
      subst hv
      norm_num)

/-- C7 counterexample: the store holds a variant with id 0 priced 11, and a
variant reachable by SKU "ABC" at 500 g priced 22.  The request's item has
`variantId` present (0) — yet the checkout resolves by SKU and charges 22,
not 11: "if variantId is present the variant is looked up by that id
directly" fails on a present-but-falsy id. -/
theorem variant_dispatch_counterexample :
    findVariantById zeroIdDB 0 = some ⟨0, 99, 500, 11⟩ ∧
    zeroReq.items = some [ItemReq.mk (some 0) "ABC" 500 none] ∧
    (checkoutHandler zeroReq zeroIdDB).status = 200 ∧
    (checkoutHandler zeroReq zeroIdDB).body = .okBody 40 22 0 22 ∧
    (11 : ℚ) ≠ 22 := by
  refine ⟨by simp [findVariantById, zeroIdDB, sampleDB], rfl, ?_, ?_, by norm_num⟩ <;>
  norm_num [checkoutHandler, zeroReq, zeroIdDB, runCheckoutTx, resolveUser,
    resolveItems, lookupVariant, variantIdTruthy, findVariantById, findVariantBySku,
    sampleDB, coerceQty, computeDiscount]

/-- C7 (amended): a line item with a present, nonzero `variantId` is looked
up by that id directly; one with an absent or zero (falsy) `variantId` is
looked up by product SKU with `grams` matched exactly, first match; and if
the item (wherever it sits in the list) has no row, the whole checkout
fails with the `'Variant not found'` message, HTTP 500, and no partial
order: the store is exactly as before the call. -/
theorem variant_lookup_dispatch (req : CheckoutReq) (db : DB)
    (items : List ItemReq) (it : ItemReq) (v : Nat)
    (h1 : req.items = some items) (h2 : it ∈ items) :
    (it.variantId = some v → v ≠ 0 → lookupVariant db it = findVariantById db v) ∧
    (it.variantId = none ∨ it.variantId = some 0 →
      lookupVariant db it = findVariantBySku db it.productSku it.grams) ∧
    (lookupVariant db it = none →
      (checkoutHandler req db).status = 500 ∧
      (checkoutHandler req db).body = .errBody "Variant not found" ∧
      (checkoutHandler req db).db = db) := by
  refine ⟨?_, ?_, ?_⟩
  · intro hv hnz
    simp [lookupVariant, variantIdTruthy, hv, hnz]
  · intro hv
    rcases hv with hv | hv <;> simp [lookupVariant, variantIdTruthy, hv]
  · intro hnone
    have herr : resolveItems db items = .error "Variant not found" :=
      resolveItems_error_of_none db items it h2 hnone
    have htx := runCheckoutTx_error_def req items db "Variant not found" herr
    rcases items with _ | ⟨a, rest⟩
    · cases h2
    · simp [checkoutHandler, h1, htx]

/-- C7 witness: instantiated at an item with no `variantId` and an unknown
SKU sitting in a store that cannot resolve it. -/
theorem variant_lookup_dispatch_witness :
    ((ItemReq.mk none "ZZZ" 100 none : ItemReq).variantId = some 1 → (1 : Nat) ≠ 0 →
      lookupVariant sampleDB ⟨none, "ZZZ", 100, none⟩ = findVariantById sampleDB 1) ∧
    ((ItemReq.mk none "ZZZ" 100 none : ItemReq).variantId = none ∨
        (ItemReq.mk none "ZZZ" 100 none : ItemReq).variantId = some 0 →
      lookupVariant sampleDB ⟨none, "ZZZ", 100, none⟩ =
        findVariantBySku sampleDB "ZZZ" 100) ∧
    (lookupVariant sampleDB ⟨none, "ZZZ", 100, none⟩ = none →
      (checkoutHandler failReq sampleDB).status = 500 ∧
      (checkoutHandler failReq sampleDB).body = .errBody "Variant not found" ∧
      (checkoutHandler failReq sampleDB).db = sampleDB) :=
  variant_lookup_dispatch failReq sampleDB [⟨none, "ZZZ", 100, none⟩]
    ⟨none, "ZZZ", 100, none⟩ 1 rfl (by simp)
